import Mathlib

/-!
Shallow embedding of the `test_unittest` repository: the ResNet50 classifier
wrapper (`src/model.py`) and the Tkinter session controller (`src/gui.py`).

Conventions of the embedding:
* Python exceptions become the inductive `PyExc`; a `try/except` block that
  re-raises a wrapping error becomes a `match` on an `Except` value.
* An image file on disk is represented by what the decoder would see
  (`FileEntry`): either a decodable image with its pixel dimensions, or one
  of the decoder failure modes.
* Tensors are tracked at the shape level (`List Nat` of dimensions); the
  external network plus `F.softmax` is a parameter producing the probability
  vector (as rationals) or an inference fault.
* `torch.topk(probabilities, k)` is modelled by `topk`: the `k` best entries
  of the indexed probability list under the ranking order `rankLE`
  (probability descending, ties by ascending class index, which is the
  stable ranking `torch.topk` produces with `sorted=True`), and a
  RuntimeError when `k` exceeds the number of classes.
-/

namespace TestUnittest

/-- Python exceptions relevant to `src/model.py` and `src/gui.py`.
`imageDecodeError` is the `ValueError("Cannot process image: ...")` raised at
model.py line 102; `predictionError` is the `ValueError("Prediction failed:
...")` raised at line 148; both keep the exception they wrapped as `cause`. -/
inductive PyExc where
  /-- Exception `FileNotFoundError` from `Image.open` on a missing path. -/
  | fileNotFoundError
  /-- Exception `PIL.UnidentifiedImageError` from `Image.open` on an empty file or a
  non-image blob. -/
  | unidentifiedImageError
  /-- Exception `OSError` from decoding a truncated image file. -/
  | truncatedImageError
  /-- Exception `TypeError` from calling a `None` model object. -/
  | typeError
  /-- Exception `RuntimeError` from `torch.topk` when `k` exceeds the class count. -/
  | topkOutOfRange
  /-- Any fault raised inside the external forward pass. -/
  | inferenceFault (msg : String)
  /-- Exception `ValueError` raised by `preprocess_image`, wrapping the decoder fault. -/
  | imageDecodeError (cause : PyExc)
  /-- Exception `ValueError` raised by `predict`, wrapping the underlying failure. -/
  | predictionError (cause : PyExc)
  deriving Repr, DecidableEq

/-- A path's content as seen by `Image.open(path).convert('RGB')`: either a
decodable image with the given pixel dimensions, or a failure mode. -/
inductive FileEntry where
  | image (height width : Nat)
  | missing
  | empty
  | truncated
  | notAnImage
  deriving Repr, DecidableEq

/-- Model of `Image.open(image_path).convert('RGB')` (model.py line 90):
yields the decoded image's (height, width) — `convert('RGB')` fixes the
channel count at 3 — or raises the decoder-specific exception. -/
def decodeImage : FileEntry → Except PyExc (Nat × Nat)
  | .image h w => .ok (h, w)
  | .missing => .error .fileNotFoundError
  | .empty => .error .unidentifiedImageError
  | .notAnImage => .error .unidentifiedImageError
  | .truncated => .error .truncatedImageError

/-- Model of `transforms.Resize(256)` (model.py line 50): scale so the shorter side
equals `size`, the longer side to `int(size * long / short)` (torchvision
truncates, as Nat division does). -/
def resizeShorter (size h w : Nat) : Nat × Nat :=
  if h ≤ w then (size, size * w / h) else (size * h / w, size)

/-- Model of `transforms.CenterCrop(224)` (model.py line 51): the output is always
`size × size` (torchvision pads first when a side is smaller than the crop;
after `Resize(256)` both sides are at least 256, so here it is a true crop). -/
def centerCrop (size : Nat) (_hw : Nat × Nat) : Nat × Nat := (size, size)

/-- The transform pipeline of `_setup_transforms` (model.py lines 49-57) at
the shape level: Resize(256), CenterCrop(224), ToTensor (3 channels first),
Normalize (shape preserving). -/
def transformShape (h w : Nat) : List Nat :=
  let c := centerCrop 224 (resizeShorter 256 h w)
  [3, c.1, c.2]

/-- Model of `ResNet50Classifier.preprocess_image` (model.py lines 88-102): decode,
transform, `unsqueeze(0)`; any exception in the block is wrapped into the
uniform `ValueError("Cannot process image: ...")`. -/
def preprocess_image (entry : FileEntry) : Except PyExc (List Nat) :=
  match decodeImage entry with
  | .ok (h, w) => .ok (1 :: transformShape h w)
  | .error e => .error (.imageDecodeError e)

/-- The label table built by `_load_imagenet_labels` (model.py lines 63-71):
30 class names. -/
def imagenet_labels : List String :=
  ["tench", "goldfish", "great white shark", "tiger shark",
   "hammerhead", "electric ray", "stingray", "cock", "hen",
   "ostrich", "brambling", "goldfinch", "house finch",
   "junco", "indigo bunting", "robin", "bulbul", "jay",
   "magpie", "chickadee", "water ouzel", "kite", "bald eagle",
   "vulture", "great grey owl", "European fire salamander",
   "common newt", "eft", "spotted salamander", "axolotl"]

/-- Lines 136-140 of model.py: use the class label when the index is in
range, otherwise the placeholder `f"Class_{class_idx}"`. -/
def labelFor (labels : List String) (class_idx : Nat) : String :=
  if h : class_idx < labels.length then labels.get ⟨class_idx, h⟩
  else "Class_" ++ toString class_idx

/-- The ranking order produced by `torch.topk(probabilities, k)` with
`sorted=True` on the indexed probability vector: higher probability first,
equal probabilities ordered by ascending class index. -/
def rankLE (x y : Nat × ℚ) : Prop := y.2 < x.2 ∨ (x.2 = y.2 ∧ x.1 ≤ y.1)

instance : DecidableRel rankLE := fun x y => by
  unfold rankLE; infer_instance

instance : IsTotal (Nat × ℚ) rankLE where
  total x y := by
    rcases lt_trichotomy x.2 y.2 with h | h | h
    · exact Or.inr (Or.inl h)
    · rcases Nat.le_total x.1 y.1 with hn | hn
      · exact Or.inl (Or.inr ⟨h, hn⟩)
      · exact Or.inr (Or.inr ⟨h.symm, hn⟩)
    · exact Or.inl (Or.inl h)

instance : IsTrans (Nat × ℚ) rankLE where
  trans x y z := by
    rintro (h1 | ⟨e1, n1⟩) (h2 | ⟨e2, n2⟩)
    · exact Or.inl (h2.trans h1)
    · exact Or.inl (e2 ▸ h1)
    · exact Or.inl (e1 ▸ h2)
    · exact Or.inr ⟨e1.trans e2, n1.trans n2⟩

/-- The full ranking `torch.topk` draws from: the probability vector indexed
by class (`(index, probability)` pairs), sorted by `rankLE`. -/
def rankDesc (p : List ℚ) : List (Nat × ℚ) :=
  List.insertionSort rankLE p.enum

/-- Model of `torch.topk(probabilities, top_k)` (model.py line 128) on a
vector of `p.length` class probabilities: the `top_k` first entries of the
descending ranking, as (class index, probability) pairs; `torch` raises a
RuntimeError when `top_k` exceeds the vector length. -/
def topk (p : List ℚ) (top_k : Nat) : Except PyExc (List (Nat × ℚ)) :=
  if top_k ≤ p.length then .ok ((rankDesc p).take top_k)
  else .error .topkOutOfRange

/-- The external inference stack seen by `predict`: the composition of the
pretrained network's forward pass (`self.model(image_tensor)`, model.py
line 124) and `F.softmax` (line 125). Given the input tensor it produces the
probability vector over the network's output classes, or a fault. -/
def Network : Type := List Nat → Except PyExc (List ℚ)

/-- State of a `ResNet50Classifier` object (model.py lines 26-33): `model`
is `None` until `_setup_model` assigns the loaded network; `class_labels`
holds the table from `_load_imagenet_labels`. The transform pipeline is the
fixed `transformShape`. -/
structure ResNet50Classifier where
  model : Option Network
  class_labels : List String

/-- Model of `ResNet50Classifier.__init__` (model.py lines 26-33): `_setup_model`
either stores the externally loaded network or re-raises its failure
(lines 37-44), after which `_setup_transforms` and `_load_imagenet_labels`
fill the remaining fields. `loadResult` is the outcome of the external
`models.resnet50(weights=...)` call. -/
def ResNet50Classifier.init (loadResult : Except PyExc Network) :
    Except PyExc ResNet50Classifier :=
  match loadResult with
  | .error e => .error e
  | .ok net => .ok { model := some net, class_labels := imagenet_labels }

/-- Model of `ResNet50Classifier.is_model_loaded` (model.py lines 150-152). -/
def ResNet50Classifier.is_model_loaded (c : ResNet50Classifier) : Bool :=
  c.model.isSome

/-- Model of `create_classifier` (model.py lines 155-162). -/
def create_classifier (loadResult : Except PyExc Network) :
    Except PyExc ResNet50Classifier :=
  ResNet50Classifier.init loadResult

/-- The body of the `try` block of `predict` (model.py lines 118-144):
preprocess, forward pass with softmax, `torch.topk`, then the label-mapping
loop over the `top_k` ranked entries. -/
def ResNet50Classifier.predictBody (c : ResNet50Classifier) (entry : FileEntry)
    (top_k : Nat) : Except PyExc (List (String × ℚ)) :=
  match preprocess_image entry with
  | .error e => .error e
  | .ok t =>
    match c.model with
    | none => .error .typeError
    | some net =>
      match net t with
      | .error e => .error e
      | .ok probs =>
        match topk probs top_k with
        | .error e => .error e
        | .ok ranked =>
            .ok (ranked.map fun ic => (labelFor c.class_labels ic.1, ic.2))

/-- Model of `ResNet50Classifier.predict` (model.py lines 104-148): the `try` body,
with any exception wrapped into `ValueError("Prediction failed: ...")`
carrying the original failure (lines 146-148). -/
def ResNet50Classifier.predict (c : ResNet50Classifier) (entry : FileEntry)
    (top_k : Nat) : Except PyExc (List (String × ℚ)) :=
  match c.predictBody entry top_k with
  | .ok r => .ok r
  | .error e => .error (.predictionError e)

/-! ## The session controller: `src/gui.py`

The interactive surface is modelled as a state record plus a queue of
callbacks scheduled with `root.after(0, ...)`; the queue is drained in FIFO
order by the interactive thread. Worker-thread bodies are modelled as state
transformers that run to completion before the queue is drained, which is
the delivery order the toolkit provides (a callback scheduled by a worker
runs on the interactive thread at the next event-loop iteration).

A Python closure created inside `except Exception as e:` that mentions `e`
reads `e` through the enclosing frame's cell; the language reference
specifies that the except clause ends with an implicit `e = None; del e`,
clearing that cell. The cells are the `load_e_cell` / `classify_e_cell`
fields, written when the except clause binds `e` and cleared when it exits. -/

/-- A rendering of `str(e)` for the message strings the GUI shows. -/
def pyStr : PyExc → String
  | .fileNotFoundError => "No such file or directory"
  | .unidentifiedImageError => "cannot identify image file"
  | .truncatedImageError => "image file is truncated"
  | .typeError => "object is not callable"
  | .topkOutOfRange => "selected index k out of range"
  | .inferenceFault msg => msg
  | .imageDecodeError cause => "Cannot process image: " ++ pyStr cause
  | .predictionError cause => "Prediction failed: " ++ pyStr cause

/-- The callbacks `gui.py` schedules on the interactive thread with
`root.after(0, ...)`. `onModelError` and `onClassificationError` stand for
the two lambdas that read the except-clause variable `e` when they run. -/
inductive Callback where
  | onModelLoaded
  | onModelError
  | onClassificationStart
  | onClassificationComplete (predictions : List (String × ℚ))
  | onClassificationError
  deriving Repr, DecidableEq

/-- An exception raised inside an interactive-thread callback itself. -/
inductive CallbackFault where
  /-- Reading a cleared closure cell for the variable `e`:
  `NameError: free variable referenced before assignment`. -/
  | nameError
  deriving Repr, DecidableEq

/-- The observable state of `ImageClassifierGUI` plus the scheduling state
of the session. `shown_errors` / `shown_warnings` record `messagebox`
dialogs; `callback_tracebacks` records exceptions raised inside callbacks,
which Tk catches and reports (the event loop survives them);
`started_classifications` counts the classification worker threads actually
spawned (gui.py line 237). -/
structure GuiState where
  classifier : Option ResNet50Classifier
  current_image_path : Option FileEntry
  predict_button_enabled : Bool
  file_label_text : String
  status_text : String
  status_color : String
  progress_running : Bool
  results_shown : Option (List (String × ℚ))
  shown_warnings : List String
  shown_errors : List String
  queue : List Callback
  load_e_cell : Option PyExc
  classify_e_cell : Option PyExc
  callback_tracebacks : List CallbackFault
  started_classifications : Nat

/-- The state after `__init__` and `setup_ui` (gui.py lines 26-148), before
`load_model` runs: no classifier, no image, predict button `tk.DISABLED`
(line 90), status "Loading model..." (line 105). -/
def GuiState.initial : GuiState where
  classifier := none
  current_image_path := none
  predict_button_enabled := false
  file_label_text := "No file selected"
  status_text := "Loading model..."
  status_color := "blue"
  progress_running := false
  results_shown := none
  shown_warnings := []
  shown_errors := []
  queue := []
  load_e_cell := none
  classify_e_cell := none
  callback_tracebacks := []
  started_classifications := 0

/-- Model of `_on_model_loaded` (gui.py lines 163-167). -/
def on_model_loaded (s : GuiState) : GuiState :=
  { s with progress_running := false,
           status_text := "Model loaded successfully", status_color := "green" }

/-- Model of `_on_model_error` (gui.py lines 169-174). -/
def on_model_error (error_msg : String) (s : GuiState) : GuiState :=
  { s with progress_running := false,
           status_text := "Model loading failed", status_color := "red",
           shown_errors := s.shown_errors ++ ["Failed to load model: " ++ error_msg] }

/-- Model of `clear_results` (gui.py lines 276-280). -/
def clear_results (s : GuiState) : GuiState :=
  { s with results_shown := none }

/-- Model of `_on_classification_start` (gui.py lines 240-245). -/
def on_classification_start (s : GuiState) : GuiState :=
  clear_results
    { s with progress_running := true, predict_button_enabled := false,
             status_text := "Classifying...", status_color := "blue" }

/-- Model of `_on_classification_complete` (gui.py lines 247-252), with
`display_results` recorded as the prediction list shown. -/
def on_classification_complete (predictions : List (String × ℚ))
    (s : GuiState) : GuiState :=
  { s with progress_running := false, predict_button_enabled := true,
           status_text := "Classification complete", status_color := "green",
           results_shown := some predictions }

/-- Model of `_on_classification_error` (gui.py lines 254-260). -/
def on_classification_error (error_msg : String) (s : GuiState) : GuiState :=
  { s with progress_running := false, predict_button_enabled := true,
           status_text := "Classification failed", status_color := "red",
           shown_errors := s.shown_errors ++ ["Failed to classify image: " ++ error_msg] }

/-- Run one scheduled callback on the interactive thread. The two error
callbacks evaluate `str(e)` by reading the worker frame's cell for `e`; a
cleared cell raises `NameError` inside the callback. -/
def runCallback (s : GuiState) : Callback → Except CallbackFault GuiState
  | .onModelLoaded => .ok (on_model_loaded s)
  | .onModelError =>
      match s.load_e_cell with
      | none => .error (.nameError)
      | some exc => .ok (on_model_error (pyStr exc) s)
  | .onClassificationStart => .ok (on_classification_start s)
  | .onClassificationComplete predictions =>
      .ok (on_classification_complete predictions s)
  | .onClassificationError =>
      match s.classify_e_cell with
      | none => .error (.nameError)
      | some exc => .ok (on_classification_error (pyStr exc) s)

/-- The interactive thread running a list of scheduled callbacks in order.
Tk catches an exception raised inside a callback and reports it
(`report_callback_exception`): the traceback is recorded and the loop
continues with the state the callback left untouched. -/
def runCallbacks (s : GuiState) : List Callback → GuiState
  | [] => s
  | cb :: rest =>
    match runCallback s cb with
    | .ok s2 => runCallbacks s2 rest
    | .error f =>
        runCallbacks
          { s with callback_tracebacks := s.callback_tracebacks ++ [f] } rest

/-- One event-loop pass: drain the pending callback queue in FIFO order. -/
def drainEvents (s : GuiState) : GuiState :=
  runCallbacks { s with queue := [] } s.queue

/-- The worker body `load_in_background` (gui.py lines 152-158), run to
completion: `progress.start()`, then `create_classifier()`; on success the
bound method `_on_model_loaded` is scheduled; on failure the except clause
binds `e`, schedules `lambda: self._on_model_error(str(e))` — a closure on
the cell for `e` — and on exit clears the cell (the implicit `del e`). -/
def load_in_background (loadResult : Except PyExc Network) (s : GuiState) :
    GuiState :=
  let s1 := { s with progress_running := true }
  match create_classifier loadResult with
  | .ok c => { s1 with classifier := some c, queue := s1.queue ++ [Callback.onModelLoaded] }
  | .error e =>
      let s2 := { s1 with load_e_cell := some e }
      let s3 := { s2 with queue := s2.queue ++ [Callback.onModelError] }
      { s3 with load_e_cell := none }

/-- Model of `select_image` (gui.py lines 176-195) given the path the file dialog
returned (`none` when the user cancelled): on a chosen path, set the current
path, update the file label, set the predict button to `tk.NORMAL`, display
the preview and clear previous results. -/
def select_image (chosen : Option FileEntry) (s : GuiState) : GuiState :=
  match chosen with
  | none => s
  | some entry =>
      clear_results
        { s with current_image_path := some entry,
                 file_label_text := "Selected: image",
                 predict_button_enabled := true }

/-- Model of `classify_image` (gui.py lines 218-238): reject synchronously with a
warning when no image is selected or an error dialog when `self.classifier`
is `None`; otherwise spawn `classify_in_background`, which schedules
`_on_classification_start`, runs `predict(path, top_k=5)` and schedules the
completion callback — or, in the except clause, binds `e`, schedules the
lambda reading `e`, and clears the cell for `e` on exit. -/
def classify_image (s : GuiState) : GuiState :=
  match s.current_image_path with
  | none => { s with shown_warnings := s.shown_warnings ++ ["Please select an image first."] }
  | some entry =>
    match s.classifier with
    | none => { s with shown_errors := s.shown_errors ++ ["Model is not loaded."] }
    | some c =>
      let s1 := { s with started_classifications := s.started_classifications + 1,
                         queue := s.queue ++ [Callback.onClassificationStart] }
      match c.predict entry 5 with
      | .ok predictions =>
          { s1 with queue := s1.queue ++ [Callback.onClassificationComplete predictions] }
      | .error e =>
          let s2 := { s1 with classify_e_cell := some e }
          let s3 := { s2 with queue := s2.queue ++ [Callback.onClassificationError] }
          { s3 with classify_e_cell := none }

/-- The actions the session can undergo after startup: the user picking (or
cancelling) the file dialog, the user pressing Classify (with the spawned
worker running to completion), and the event loop draining its queue. -/
inductive SessionAction where
  | select (chosen : Option FileEntry)
  | classify
  | drain
  deriving Repr

/-- Apply one session action. -/
def stepAction (s : GuiState) : SessionAction → GuiState
  | .select chosen => select_image chosen s
  | .classify => classify_image s
  | .drain => drainEvents s

/-- Apply a sequence of session actions in order. -/
def runActions (s : GuiState) (acts : List SessionAction) : GuiState :=
  acts.foldl stepAction s

/-! ## Concrete fixtures used by witnesses and counterexamples -/

/-- A stub external inference stack with 4 classes and a probability tie
between classes 2 and 3 (witness inputs). -/
def netSmall : Network := fun _ => .ok [(3 : ℚ), 1, 2, 2]

/-- A stub external inference stack with the real network's 1000 classes. -/
def net1000 : Network := fun _ => .ok (List.replicate 1000 ((1 : ℚ) / 1000))

/-- A classifier whose `_setup_model` stored `netSmall`. -/
def cSmall : ResNet50Classifier :=
  { model := some netSmall, class_labels := imagenet_labels }

/-- A classifier whose `_setup_model` stored `net1000`. -/
def cBig : ResNet50Classifier :=
  { model := some net1000, class_labels := imagenet_labels }

/-- Session-level property: the classifier was never stored and no
classification worker was ever spawned. -/
def noModel (s : GuiState) : Prop :=
  s.classifier = none ∧ s.started_classifications = 0

/-! ## Theorems -/

/-- Characterization of a successful `predict` call: preprocessing
succeeded, the model was present, inference produced a probability vector
with at least `top_k` classes, and the result is the label-mapped prefix of
the descending ranking. -/
theorem predict_ok_spec (c : ResNet50Classifier) (entry : FileEntry)
    (top_k : Nat) (r : List (String × ℚ)) (h : c.predict entry top_k = .ok r) :
    ∃ probs : List ℚ,
      (∃ t net, preprocess_image entry = .ok t ∧ c.model = some net ∧
        net t = .ok probs) ∧
      top_k ≤ probs.length ∧
      r = ((rankDesc probs).take top_k).map
            (fun ic => (labelFor c.class_labels ic.1, ic.2)) := by
  unfold ResNet50Classifier.predict at h
  cases hb : c.predictBody entry top_k with
  | error e => rw [hb] at h; exact absurd h (by simp)
  | ok v =>
    rw [hb] at h
    simp only [] at h
    injection h with h
    subst h
    unfold ResNet50Classifier.predictBody at hb
    cases hpre : preprocess_image entry with
    | error e => rw [hpre] at hb; exact absurd hb (by simp)
    | ok t =>
      rw [hpre] at hb
      simp only [] at hb
      cases hm : c.model with
      | none => rw [hm] at hb; exact absurd hb (by simp)
      | some net =>
        rw [hm] at hb
        simp only [] at hb
        cases hnet : net t with
        | error e => rw [hnet] at hb; exact absurd hb (by simp)
        | ok probs =>
          rw [hnet] at hb
          simp only [] at hb
          unfold topk at hb
          by_cases hk : top_k ≤ probs.length
          · rw [if_pos hk] at hb
            simp only [] at hb
            injection hb with hb
            exact ⟨probs, ⟨t, net, rfl, rfl, hnet⟩, hk, hb.symm⟩
          · rw [if_neg hk] at hb
            exact absurd hb (by simp)

/-- C4: for every input path that is missing, an empty file, or not a
decodable image (including a truncated one), `preprocess_image` fails with
the single uniform `imageDecodeError` kind wrapping the underlying decoder
fault, never with the raw decoder-specific exception itself. -/
theorem c4_uniform_decode_error (entry : FileEntry)
    (h : entry = .missing ∨ entry = .empty ∨ entry = .notAnImage ∨
         entry = .truncated) :
    ∃ cause, preprocess_image entry = .error (.imageDecodeError cause) := by
  rcases h with rfl | rfl | rfl | rfl <;> exact ⟨_, rfl⟩

/-- Witness for C4 at the missing-file input. -/
theorem c4_uniform_decode_error_witness :
    (FileEntry.missing = .missing ∨ FileEntry.missing = .empty ∨
      FileEntry.missing = .notAnImage ∨ FileEntry.missing = .truncated) ∧
    ∃ cause,
      preprocess_image .missing = .error (.imageDecodeError cause) :=
  ⟨Or.inl rfl, c4_uniform_decode_error .missing (Or.inl rfl)⟩

/-- C6: on every decodable image with positive dimensions, preprocessing
yields a tensor of shape (1, 3, 224, 224); the intermediate resize makes
the shorter side exactly 256 and leaves both sides at least 224, so the
center crop is a true 224×224 crop. -/
theorem c6_preprocess_shape (h w : Nat) (hh : 1 ≤ h) (hw : 1 ≤ w) :
    preprocess_image (.image h w) = .ok [1, 3, 224, 224] ∧
    min (resizeShorter 256 h w).1 (resizeShorter 256 h w).2 = 256 ∧
    224 ≤ (resizeShorter 256 h w).1 ∧ 224 ≤ (resizeShorter 256 h w).2 := by
  refine ⟨rfl, ?_⟩
  unfold resizeShorter
  by_cases hle : h ≤ w
  · rw [if_pos hle]
    have h256 : 256 ≤ 256 * w / h := by
      rw [Nat.le_div_iff_mul_le hh]
      exact Nat.mul_le_mul_left 256 hle
    exact ⟨by simpa using Nat.min_eq_left h256, by norm_num,
      le_trans (by norm_num) h256⟩
  · rw [if_neg hle]
    have hwh : w ≤ h := le_of_not_le hle
    have h256 : 256 ≤ 256 * h / w := by
      rw [Nat.le_div_iff_mul_le hw]
      exact Nat.mul_le_mul_left 256 hwh
    exact ⟨by simpa using Nat.min_eq_right h256, le_trans (by norm_num) h256,
      by norm_num⟩

/-- Witness for C6 at a 100×100 image. -/
theorem c6_preprocess_shape_witness :
    1 ≤ 100 ∧ 1 ≤ 100 ∧
    (preprocess_image (.image 100 100) = .ok [1, 3, 224, 224] ∧
     min (resizeShorter 256 100 100).1 (resizeShorter 256 100 100).2 = 256 ∧
     224 ≤ (resizeShorter 256 100 100).1 ∧
     224 ≤ (resizeShorter 256 100 100).2) :=
  ⟨by decide, by decide,
    c6_preprocess_shape 100 100 (by decide) (by decide)⟩

/-- C10: every successfully constructed classifier reports
`is_model_loaded() = true`: construction either completes the model load or
re-raises its failure, so no partially initialized instance is observable. -/
theorem c10_constructed_is_loaded (loadResult : Except PyExc Network)
    (c : ResNet50Classifier) (h : create_classifier loadResult = .ok c) :
    c.is_model_loaded = true := by
  cases loadResult with
  | error e =>
      exact absurd h (by simp [create_classifier, ResNet50Classifier.init])
  | ok net =>
      simp only [create_classifier, ResNet50Classifier.init] at h
      injection h with h
      subst h
      rfl

/-- Witness for C10 at a concrete successful load. -/
theorem c10_constructed_is_loaded_witness :
    create_classifier (.ok netSmall) = .ok cSmall ∧
    cSmall.is_model_loaded = true :=
  ⟨rfl, c10_constructed_is_loaded (.ok netSmall) cSmall rfl⟩

/-- C3 counterexample: `predict` with `topK = 0` does not fail — on a valid
image with a loaded model it silently returns the empty prediction list
(`torch.topk` accepts `k = 0` and the entry loop runs zero times). -/
theorem c3_counterexample :
    cSmall.predict (.image 100 100) 0 = .ok [] := rfl

/-- C3 amended: `predict` called with `topK = 0` on a valid image with a
loaded model and successful inference silently returns an empty Prediction
rather than failing. -/
theorem c3_amended_topk_zero (c : ResNet50Classifier) (entry : FileEntry)
    (net : Network) (t : List Nat) (probs : List ℚ)
    (hm : c.model = some net) (hpre : preprocess_image entry = .ok t)
    (hnet : net t = .ok probs) :
    c.predict entry 0 = .ok [] := by
  simp [ResNet50Classifier.predict, ResNet50Classifier.predictBody, hpre, hm,
    hnet, topk]

/-- Witness for the amended C3 at a concrete run. -/
theorem c3_amended_topk_zero_witness :
    cSmall.model = some netSmall ∧
    preprocess_image (.image 100 100) = .ok [1, 3, 224, 224] ∧
    netSmall [1, 3, 224, 224] = .ok [(3 : ℚ), 1, 2, 2] ∧
    cSmall.predict (.image 100 100) 0 = .ok [] :=
  ⟨rfl, rfl, rfl,
    c3_amended_topk_zero cSmall (.image 100 100) netSmall _ _ rfl rfl rfl⟩

/-- C1: with the model loaded, on every valid image whose inference yields
the network's 1000-class probability vector, `predict` with any `topK`
between 1 and ten times the 30-entry label-table size returns exactly
`topK` entries — also when `topK` exceeds the table length. -/
theorem c1_predict_length (c : ResNet50Classifier) (entry : FileEntry)
    (net : Network) (t : List Nat) (probs : List ℚ) (k : Nat)
    (hm : c.model = some net) (hpre : preprocess_image entry = .ok t)
    (hnet : net t = .ok probs) (hlen : probs.length = 1000)
    (_hk1 : 1 ≤ k) (hk2 : k ≤ imagenet_labels.length * 10) :
    ∃ r, c.predict entry k = .ok r ∧ r.length = k := by
  have h300 : imagenet_labels.length * 10 ≤ 1000 := by decide
  have hk : k ≤ probs.length := by
    rw [hlen]; exact le_trans hk2 h300
  refine ⟨((rankDesc probs).take k).map
    (fun ic => (labelFor c.class_labels ic.1, ic.2)), ?_, ?_⟩
  · simp [ResNet50Classifier.predict, ResNet50Classifier.predictBody, hpre,
      hm, hnet, topk, hk]
  · rw [List.length_map, List.length_take]
    simp only [rankDesc, List.length_insertionSort, List.enum_length]
    rw [hlen] at hk ⊢
    exact Nat.min_eq_left hk

/-- Witness for C1 at `topK = 31`, one past the label-table length. -/
theorem c1_predict_length_witness :
    cBig.model = some net1000 ∧
    preprocess_image (.image 100 100) = .ok [1, 3, 224, 224] ∧
    net1000 [1, 3, 224, 224] = .ok (List.replicate 1000 ((1 : ℚ) / 1000)) ∧
    (List.replicate 1000 ((1 : ℚ) / 1000)).length = 1000 ∧
    1 ≤ 31 ∧ 31 ≤ imagenet_labels.length * 10 ∧
    ∃ r, cBig.predict (.image 100 100) 31 = .ok r ∧ r.length = 31 :=
  ⟨rfl, rfl, rfl, by rw [List.length_replicate], by decide, by decide,
    c1_predict_length cBig (.image 100 100) net1000 [1, 3, 224, 224] _ 31
      rfl rfl rfl (by rw [List.length_replicate]) (by decide) (by decide)⟩

/-- C2: the confidences of a returned Prediction are non-increasing from
first to last, and the result is the label-mapped image of an underlying
(class index, probability) ranking sorted by probability descending with
ties in ascending class-index order. -/
theorem c2_confidences_sorted (c : ResNet50Classifier) (entry : FileEntry)
    (k : Nat) (r : List (String × ℚ)) (h : c.predict entry k = .ok r) :
    List.Sorted (fun a b : String × ℚ => b.2 ≤ a.2) r ∧
    ∃ ranked : List (Nat × ℚ), List.Sorted rankLE ranked ∧
      r = ranked.map (fun ic => (labelFor c.class_labels ic.1, ic.2)) := by
  obtain ⟨probs, ⟨t, net, hpre, hm, hnet⟩, hk, hr⟩ :=
    predict_ok_spec c entry k r h
  have hfull : List.Sorted rankLE (rankDesc probs) :=
    List.sorted_insertionSort rankLE probs.enum
  have htake : List.Sorted rankLE ((rankDesc probs).take k) :=
    List.Pairwise.sublist (List.take_sublist k (rankDesc probs)) hfull
  subst hr
  refine ⟨?_, _, htake, rfl⟩
  refine List.Pairwise.map _ (fun a b hab => ?_) htake
  rcases hab with hlt | ⟨heq, _⟩
  · exact le_of_lt hlt
  · exact le_of_eq heq.symm

/-- Witness for C2 at a run with a probability tie between classes 2 and 3. -/
theorem c2_confidences_sorted_witness :
    cSmall.predict (.image 100 100) 3 =
      .ok [("tench", (3 : ℚ)), ("great white shark", (2 : ℚ)),
           ("tiger shark", (2 : ℚ))] ∧
    (List.Sorted (fun a b : String × ℚ => b.2 ≤ a.2)
        [("tench", (3 : ℚ)), ("great white shark", (2 : ℚ)),
         ("tiger shark", (2 : ℚ))] ∧
     ∃ ranked : List (Nat × ℚ), List.Sorted rankLE ranked ∧
       [("tench", (3 : ℚ)), ("great white shark", (2 : ℚ)),
        ("tiger shark", (2 : ℚ))] =
         ranked.map (fun ic => (labelFor cSmall.class_labels ic.1, ic.2))) :=
  ⟨by rfl, c2_confidences_sorted cSmall (.image 100 100) 3 _ (by rfl)⟩

/-- C5: every entry of a returned Prediction carries the label of its
underlying class index: the label table's name at that index when the index
is below the table length, and the placeholder "Class_&lt;index&gt;"
otherwise. -/
theorem c5_label_mapping (c : ResNet50Classifier) (entry : FileEntry)
    (k : Nat) (r : List (String × ℚ)) (h : c.predict entry k = .ok r) :
    ∀ p ∈ r, ∃ idx : Nat, ∃ conf : ℚ,
      (∃ probs ranked, topk probs k = .ok ranked ∧ (idx, conf) ∈ ranked ∧
        ∃ t net, preprocess_image entry = .ok t ∧ c.model = some net ∧
          net t = .ok probs) ∧
      p = (labelFor c.class_labels idx, conf) ∧
      (∀ hlt : idx < c.class_labels.length,
        p.1 = c.class_labels.get ⟨idx, hlt⟩) ∧
      (c.class_labels.length ≤ idx → p.1 = "Class_" ++ toString idx) := by
  obtain ⟨probs, ⟨t, net, hpre, hm, hnet⟩, hk, hr⟩ :=
    predict_ok_spec c entry k r h
  subst hr
  intro p hp
  rw [List.mem_map] at hp
  obtain ⟨ic, hic, rfl⟩ := hp
  refine ⟨ic.1, ic.2,
    ⟨probs, (rankDesc probs).take k, ?_, ?_, t, net, hpre, hm, hnet⟩,
    rfl, ?_, ?_⟩
  · unfold topk
    rw [if_pos hk]
  · simpa using hic
  · intro hlt
    simp [labelFor, hlt]
  · intro hge
    simp [labelFor, Nat.not_lt.mpr hge]

/-- Witness for C5: a run whose top-2 entries are in-table classes. -/
theorem c5_label_mapping_witness :
    cSmall.predict (.image 100 100) 2 =
      .ok [("tench", (3 : ℚ)), ("great white shark", (2 : ℚ))] ∧
    (∀ p ∈ [("tench", (3 : ℚ)), ("great white shark", (2 : ℚ))],
      ∃ idx : Nat, ∃ conf : ℚ,
        (∃ probs ranked, topk probs 2 = .ok ranked ∧ (idx, conf) ∈ ranked ∧
          ∃ t net, preprocess_image (.image 100 100) = .ok t ∧
            cSmall.model = some net ∧ net t = .ok probs) ∧
        p = (labelFor cSmall.class_labels idx, conf) ∧
        (∀ hlt : idx < cSmall.class_labels.length,
          p.1 = cSmall.class_labels.get ⟨idx, hlt⟩) ∧
        (cSmall.class_labels.length ≤ idx →
          p.1 = "Class_" ++ toString idx)) :=
  ⟨by rfl, c5_label_mapping cSmall (.image 100 100) 2 _ (by rfl)⟩

/-- C7: whenever `predict` fails, the error is a `predictionError` wrapping
as its cause exactly the error the failing stage raised: the decode error
from preprocessing, the `TypeError` from a missing model, the fault from
the forward pass, or the `torch.topk` range error. -/
theorem c7_prediction_error_wraps (c : ResNet50Classifier)
    (entry : FileEntry) (k : Nat) (e : PyExc)
    (h : c.predict entry k = .error e) :
    ∃ cause, e = .predictionError cause ∧
      (preprocess_image entry = .error cause ∨
       (∃ t, preprocess_image entry = .ok t ∧ c.model = none ∧
          cause = .typeError) ∨
       (∃ t net, preprocess_image entry = .ok t ∧ c.model = some net ∧
          net t = .error cause) ∨
       (∃ t net probs, preprocess_image entry = .ok t ∧
          c.model = some net ∧ net t = .ok probs ∧ probs.length < k ∧
          cause = .topkOutOfRange)) := by
  unfold ResNet50Classifier.predict at h
  cases hb : c.predictBody entry k with
  | ok v => rw [hb] at h; exact absurd h (by simp)
  | error e2 =>
    rw [hb] at h
    simp only [] at h
    injection h with h
    subst h
    refine ⟨e2, rfl, ?_⟩
    unfold ResNet50Classifier.predictBody at hb
    cases hpre : preprocess_image entry with
    | error e3 =>
      rw [hpre] at hb
      simp only [] at hb
      injection hb with hb
      exact Or.inl (by rw [hb])
    | ok t =>
      rw [hpre] at hb
      simp only [] at hb
      cases hm : c.model with
      | none =>
        rw [hm] at hb
        simp only [] at hb
        injection hb with hb
        exact Or.inr (Or.inl ⟨t, rfl, rfl, hb.symm⟩)
      | some net =>
        rw [hm] at hb
        simp only [] at hb
        cases hnet : net t with
        | error e4 =>
          rw [hnet] at hb
          simp only [] at hb
          injection hb with hb
          exact Or.inr (Or.inr (Or.inl ⟨t, net, rfl, rfl, hb ▸ hnet⟩))
        | ok probs =>
          rw [hnet] at hb
          simp only [] at hb
          unfold topk at hb
          by_cases hk : k ≤ probs.length
          · rw [if_pos hk] at hb
            exact absurd hb (by simp)
          · rw [if_neg hk] at hb
            simp only [] at hb
            injection hb with hb
            exact Or.inr (Or.inr (Or.inr ⟨t, net, probs, rfl, rfl, hnet,
              Nat.not_le.mp hk, hb.symm⟩))

/-- Witness for C7 at a missing file: the decode error is preserved inside
the prediction error. -/
theorem c7_prediction_error_wraps_witness :
    cSmall.predict .missing 5 =
      .error (.predictionError (.imageDecodeError .fileNotFoundError)) ∧
    ∃ cause,
      PyExc.predictionError (.imageDecodeError .fileNotFoundError) =
        .predictionError cause ∧
      (preprocess_image .missing = .error cause ∨
       (∃ t, preprocess_image .missing = .ok t ∧ cSmall.model = none ∧
          cause = .typeError) ∨
       (∃ t net, preprocess_image .missing = .ok t ∧
          cSmall.model = some net ∧ net t = .error cause) ∨
       (∃ t net probs, preprocess_image .missing = .ok t ∧
          cSmall.model = some net ∧ net t = .ok probs ∧
          probs.length < 5 ∧ cause = .topkOutOfRange)) :=
  ⟨rfl, c7_prediction_error_wraps cSmall .missing 5 _ rfl⟩

/-- A callback that succeeds never stores a classifier and never spawns a
classification worker: only `load_in_background` writes `classifier` and
only `classify_image` increments `started_classifications`. -/
theorem runCallback_preserves (s : GuiState) (cb : Callback) (s2 : GuiState)
    (h : runCallback s cb = .ok s2) :
    s2.classifier = s.classifier ∧
    s2.started_classifications = s.started_classifications := by
  cases cb with
  | onModelLoaded =>
    simp only [runCallback] at h
    injection h with h
    subst h
    exact ⟨rfl, rfl⟩
  | onModelError =>
    simp only [runCallback] at h
    cases hc : s.load_e_cell with
    | none => rw [hc] at h; exact absurd h (by simp)
    | some exc =>
      rw [hc] at h
      simp only [] at h
      injection h with h
      subst h
      exact ⟨rfl, rfl⟩
  | onClassificationStart =>
    simp only [runCallback] at h
    injection h with h
    subst h
    exact ⟨rfl, rfl⟩
  | onClassificationComplete preds =>
    simp only [runCallback] at h
    injection h with h
    subst h
    exact ⟨rfl, rfl⟩
  | onClassificationError =>
    simp only [runCallback] at h
    cases hc : s.classify_e_cell with
    | none => rw [hc] at h; exact absurd h (by simp)
    | some exc =>
      rw [hc] at h
      simp only [] at h
      injection h with h
      subst h
      exact ⟨rfl, rfl⟩

/-- Draining callbacks preserves the stored classifier and the number of
spawned classification workers. -/
theorem runCallbacks_preserves (cbs : List Callback) :
    ∀ s : GuiState, (runCallbacks s cbs).classifier = s.classifier ∧
      (runCallbacks s cbs).started_classifications =
        s.started_classifications := by
  induction cbs with
  | nil => intro s; exact ⟨rfl, rfl⟩
  | cons cb rest ih =>
    intro s
    unfold runCallbacks
    cases hrc : runCallback s cb with
    | ok s2 =>
      obtain ⟨h1, h2⟩ := runCallback_preserves s cb s2 hrc
      obtain ⟨h3, h4⟩ := ih s2
      exact ⟨h3.trans h1, h4.trans h2⟩
    | error f =>
      exact ih { s with callback_tracebacks := s.callback_tracebacks ++ [f] }

/-- Once the classifier is unset and no classification was ever spawned, no
session action (image selection, classify request, event-loop pass) can
change that. -/
theorem stepAction_noModel (s : GuiState) (a : SessionAction)
    (h : noModel s) : noModel (stepAction s a) := by
  obtain ⟨hc, hn⟩ := h
  cases a with
  | select chosen =>
    cases chosen with
    | none => exact ⟨hc, hn⟩
    | some entry => exact ⟨hc, hn⟩
  | classify =>
    show noModel (classify_image s)
    cases hp : s.current_image_path with
    | none =>
      simp only [classify_image, hp]
      exact ⟨hc, hn⟩
    | some entry =>
      simp only [classify_image, hp, hc]
      exact ⟨rfl, hn⟩
  | drain =>
    obtain ⟨h1, h2⟩ := runCallbacks_preserves s.queue { s with queue := [] }
    exact ⟨h1.trans hc, h2.trans hn⟩

/-- Property `noModel` is an invariant of arbitrary action sequences. -/
theorem runActions_noModel (acts : List SessionAction) :
    ∀ s : GuiState, noModel s → noModel (runActions s acts) := by
  induction acts with
  | nil => intro s h; exact h
  | cons a rest ih =>
    intro s h
    exact ih (stepAction s a) (stepAction_noModel s a h)

/-- C8 is violated by the code: a typed error raised inside a background
task is never delivered for display. In both workers the except clause
schedules a lambda reading the except-clause variable `e`, which Python
clears when the clause exits, so when the interactive thread runs the
callback it dies with `NameError` (caught and logged by the toolkit): after
a failed load no error dialog is shown and the status stays
"Loading model..."; after a failed classification no dialog is shown, the
status stays "Classifying..." and the classify button stays disabled. -/
theorem c8_background_error_lost :
    (∀ e : PyExc,
      (drainEvents (load_in_background (.error e)
          GuiState.initial)).shown_errors = [] ∧
      (drainEvents (load_in_background (.error e)
          GuiState.initial)).status_text = "Loading model..." ∧
      (drainEvents (load_in_background (.error e)
          GuiState.initial)).callback_tracebacks = [.nameError]) ∧
    ((drainEvents (classify_image (select_image (some .missing)
        (drainEvents (load_in_background (.ok netSmall)
          GuiState.initial))))).shown_errors = [] ∧
     (drainEvents (classify_image (select_image (some .missing)
        (drainEvents (load_in_background (.ok netSmall)
          GuiState.initial))))).status_text = "Classifying..." ∧
     (drainEvents (classify_image (select_image (some .missing)
        (drainEvents (load_in_background (.ok netSmall)
          GuiState.initial))))).predict_button_enabled = false ∧
     (drainEvents (classify_image (select_image (some .missing)
        (drainEvents (load_in_background (.ok netSmall)
          GuiState.initial))))).callback_tracebacks = [.nameError]) :=
  ⟨fun _ => ⟨rfl, rfl, rfl⟩, rfl, rfl, rfl, rfl⟩

/-- C9 counterexample: after the model load has failed, selecting an image
re-enables the classify action — the claim that no user action ever
re-enables it is false. -/
theorem c9_counterexample :
    (select_image (some (.image 100 100))
      (drainEvents (load_in_background (.error .fileNotFoundError)
        GuiState.initial))).predict_button_enabled = true := rfl

/-- C9 amended: after the model load fails, selecting an image does
re-enable the classify action, but the classifier stays unset under every
subsequent sequence of session actions, no classification worker is ever
spawned, and a classify request with an image selected is rejected
synchronously with the "Model is not loaded." error dialog. -/
theorem c9_amended_rejected_not_disabled (e : PyExc) (entry : FileEntry)
    (acts : List SessionAction) :
    (select_image (some entry)
      (drainEvents (load_in_background (.error e)
        GuiState.initial))).predict_button_enabled = true ∧
    (runActions (drainEvents (load_in_background (.error e)
        GuiState.initial)) acts).classifier = none ∧
    (runActions (drainEvents (load_in_background (.error e)
        GuiState.initial)) acts).started_classifications = 0 ∧
    (∀ s : GuiState, s.classifier = none →
      s.current_image_path = some entry →
      classify_image s =
        { s with shown_errors := s.shown_errors ++ ["Model is not loaded."] }) := by
  have hfail :
      noModel (drainEvents (load_in_background (.error e) GuiState.initial)) :=
    ⟨rfl, rfl⟩
  obtain ⟨h1, h2⟩ := runActions_noModel acts _ hfail
  refine ⟨rfl, h1, h2, ?_⟩
  intro s hc hp
  simp only [classify_image, hp, hc]

/-- Witness for the amended C9 on a concrete session: failed load, image
selected, classify pressed, events drained. -/
theorem c9_amended_rejected_not_disabled_witness :
    (select_image (some (.image 100 100))
      (drainEvents (load_in_background (.error .fileNotFoundError)
        GuiState.initial))).predict_button_enabled = true ∧
    (runActions (drainEvents (load_in_background (.error .fileNotFoundError)
        GuiState.initial))
      [SessionAction.select (some (.image 100 100)), SessionAction.classify,
       SessionAction.drain]).classifier = none ∧
    (runActions (drainEvents (load_in_background (.error .fileNotFoundError)
        GuiState.initial))
      [SessionAction.select (some (.image 100 100)), SessionAction.classify,
       SessionAction.drain]).started_classifications = 0 ∧
    ((select_image (some (.image 100 100))
        (drainEvents (load_in_background (.error .fileNotFoundError)
          GuiState.initial))).classifier = none ∧
     (select_image (some (.image 100 100))
        (drainEvents (load_in_background (.error .fileNotFoundError)
          GuiState.initial))).current_image_path = some (.image 100 100) ∧
     classify_image (select_image (some (.image 100 100))
        (drainEvents (load_in_background (.error .fileNotFoundError)
          GuiState.initial))) =
       { (select_image (some (.image 100 100))
            (drainEvents (load_in_background (.error .fileNotFoundError)
              GuiState.initial))) with
         shown_errors :=
           (select_image (some (.image 100 100))
              (drainEvents (load_in_background (.error .fileNotFoundError)
                GuiState.initial))).shown_errors ++
             ["Model is not loaded."] }) := by
  obtain ⟨h1, h2, h3, h4⟩ :=
    c9_amended_rejected_not_disabled .fileNotFoundError (.image 100 100)
      [SessionAction.select (some (.image 100 100)), SessionAction.classify,
       SessionAction.drain]
  exact ⟨h1, h2, h3, rfl, rfl, h4 _ rfl rfl⟩

end TestUnittest
